import Mathlib

/-!
Verification of the job-orchestration subsystem of the Gemini coding-factory
service. The TypeScript sources (webhook server, BullMQ queue setup, worker
processor, orchestrator process execution) are shallowly embedded as
executable Lean definitions, and the specified properties are settled
against them.

Conventions: JS strings are Lean `String` (all relevant values are ASCII, so
byte length and character length coincide); `Date.now()` timestamps are `Nat`
milliseconds; the settlement of a promise is computed from a finite script of
process events; a thrown exception is an `Except.error`.
-/

set_option maxRecDepth 10000

namespace GeminiTeam

/-! ## String utilities (JS semantics helpers) -/

/-- JS `String.prototype.toLowerCase` restricted to ASCII (the quota
indicator strings are ASCII). -/
def lowerChar (c : Char) : Char :=
  if 65 ≤ c.toNat ∧ c.toNat ≤ 90 then Char.ofNat (c.toNat + 32) else c

def toLowerStr (s : String) : String := String.mk (s.data.map lowerChar)

def startsWithL : List Char → List Char → Bool
  | [], _ => true
  | _ :: _, [] => false
  | a :: as, b :: bs => a = b && startsWithL as bs

def infixOfL (needle : List Char) : List Char → Bool
  | [] => needle.isEmpty
  | c :: rest => startsWithL needle (c :: rest) || infixOfL needle rest

/-- JS `String.prototype.includes`. -/
def containsSub (s sub : String) : Bool := infixOfL sub.data s.data

/-- Number of newline characters in a string (counts retained output lines). -/
def newlineCount (s : String) : Nat := s.data.countP (· = '\n')

/-- JS `String.prototype.substring(0, n)`. -/
def substringTo (s : String) (n : Nat) : String := String.mk (s.data.take n)

/-! ## SHA-256 / HMAC-SHA256

Embedding of the node `crypto.createHmac` SHA-256 hex digest
as used by `WebhookServer.verifySignature` (webhook-server.ts 294-303). -/

namespace Crypto

/-- Truncation to 32 bits. -/
def mask32 (x : Nat) : Nat := x % 4294967296

def add32 (a b : Nat) : Nat := mask32 (a + b)

def rotr (n x : Nat) : Nat := mask32 ((x >>> n) ||| (x <<< (32 - n)))

def shr (n x : Nat) : Nat := x >>> n

def bigSigma0 (x : Nat) : Nat := (rotr 2 x) ^^^ (rotr 13 x) ^^^ (rotr 22 x)
def bigSigma1 (x : Nat) : Nat := (rotr 6 x) ^^^ (rotr 11 x) ^^^ (rotr 25 x)
def smallSigma0 (x : Nat) : Nat := (rotr 7 x) ^^^ (rotr 18 x) ^^^ (shr 3 x)
def smallSigma1 (x : Nat) : Nat := (rotr 17 x) ^^^ (rotr 19 x) ^^^ (shr 10 x)

def ch (x y z : Nat) : Nat := (x &&& y) ^^^ ((x ^^^ 4294967295) &&& z)
def maj (x y z : Nat) : Nat := (x &&& y) ^^^ (x &&& z) ^^^ (y &&& z)

def K : List Nat := [
  1116352408, 1899447441, 3049323471, 3921009573, 961987163,
  1508970993, 2453635748, 2870763221, 3624381080, 310598401,
  607225278, 1426881987, 1925078388, 2162078206, 2614888103,
  3248222580, 3835390401, 4022224774, 264347078, 604807628,
  770255983, 1249150122, 1555081692, 1996064986, 2554220882,
  2821834349, 2952996808, 3210313671, 3336571891, 3584528711,
  113926993, 338241895, 666307205, 773529912, 1294757372,
  1396182291, 1695183700, 1986661051, 2177026350, 2456956037,
  2730485921, 2820302411, 3259730800, 3345764771, 3516065817,
  3600352804, 4094571909, 275423344, 430227734, 506948616,
  659060556, 883997877, 958139571, 1322822218, 1537002063,
  1747873779, 1955562222, 2024104815, 2227730452, 2361852424,
  2428436474, 2756734187, 3204031479, 3329325298]

def H0 : List Nat := [
  1779033703, 3144134277, 1013904242,
  2773480762, 1359893119, 2600822924,
  528734635, 1541459225]

/-- Big-endian assembly of 4 bytes into a 32-bit word. -/
def word (b0 b1 b2 b3 : Nat) : Nat := b0 * 16777216 + b1 * 65536 + b2 * 256 + b3

/-- Split 64 padded bytes into 16 big-endian words. -/
def toWords : List Nat → List Nat
  | b0 :: b1 :: b2 :: b3 :: rest => word b0 b1 b2 b3 :: toWords rest
  | _ => []

/-- SHA-256 padding: append 0x80, zero bytes to 56 mod 64, then the 64-bit
big-endian bit length. -/
def pad (msg : List Nat) : List Nat :=
  let L := msg.length * 8
  let zeros := (55 + 64 - msg.length % 64) % 64
  msg ++ [0x80] ++ List.replicate zeros 0 ++
    [L / 72057594037927936 % 256, L / 281474976710656 % 256, L / 1099511627776 % 256,
     L / 4294967296 % 256, L / 16777216 % 256, L / 65536 % 256, L / 256 % 256, L % 256]

/-- Message-schedule extension from 16 to 64 words (w is kept newest-first). -/
def extend : Nat → List Nat → List Nat
  | 0, w => w
  | n + 1, w =>
    let w2 := w.getD 1 0
    let w7 := w.getD 6 0
    let w15 := w.getD 14 0
    let w16 := w.getD 15 0
    extend n (mask32 (smallSigma1 w2 + w7 + smallSigma0 w15 + w16) :: w)

/-- One round of the SHA-256 compression function. -/
def round (st : List Nat) (k w : Nat) : List Nat :=
  match st with
  | [a, b, c, d, e, f, g, h] =>
    let t1 := mask32 (h + bigSigma1 e + ch e f g + k + w)
    let t2 := mask32 (bigSigma0 a + maj a b c)
    [add32 t1 t2, a, b, c, mask32 (d + t1), e, f, g]
  | st => st

/-- Compress one 512-bit block into the running hash state. -/
def compress (h : List Nat) (block : List Nat) : List Nat :=
  let w := (extend 48 (toWords block).reverse).reverse
  let st := (List.zip K w).foldl (fun st kw => round st kw.1 kw.2) h
  (List.zip h st).map (fun p => add32 p.1 p.2)

def chunksGo : Nat → List Nat → List (List Nat)
  | 0, _ => []
  | n + 1, l => if l.isEmpty then [] else l.take 64 :: chunksGo n (l.drop 64)

/-- Split a byte list into 64-byte blocks (the fuel bounds the block count). -/
def chunks (l : List Nat) : List (List Nat) := chunksGo l.length l

/-- SHA-256 of a byte list, as the list of 8 32-bit hash words. -/
def sha256Words (msg : List Nat) : List Nat :=
  (chunks (pad msg)).foldl compress H0

/-- SHA-256 digest as a list of 32 bytes. -/
def sha256 (msg : List Nat) : List Nat :=
  (sha256Words msg).flatMap (fun w => [w / 16777216 % 256, w / 65536 % 256, w / 256 % 256, w % 256])

def hexChar (n : Nat) : Char :=
  if n < 10 then Char.ofNat (48 + n) else Char.ofNat (87 + n)

/-- Lower-case hex encoding of a byte list. -/
def hexEncode (bytes : List Nat) : String :=
  String.mk (bytes.flatMap (fun b => [hexChar (b / 16), hexChar (b % 16)]))

/-- UTF-8 bytes of a string. -/
def utf8Char (c : Char) : List Nat :=
  let n := c.toNat
  if n < 0x80 then [n]
  else if n < 0x800 then [0xc0 + n / 64, 0x80 + n % 64]
  else if n < 0x10000 then [0xe0 + n / 4096, 0x80 + n / 64 % 64, 0x80 + n % 64]
  else [0xf0 + n / 262144, 0x80 + n / 4096 % 64, 0x80 + n / 64 % 64, 0x80 + n % 64]

def strBytes (s : String) : List Nat := s.data.flatMap utf8Char

/-- HMAC-SHA256 over byte lists (block size 64). -/
def hmacSha256 (key msg : List Nat) : List Nat :=
  let key1 := if key.length > 64 then sha256 key else key
  let key2 := key1 ++ List.replicate (64 - key1.length) 0
  let ipad := key2.map (fun b => b ^^^ 0x36)
  let opad := key2.map (fun b => b ^^^ 0x5c)
  sha256 (opad ++ sha256 (ipad ++ msg))

/-- The hex digest `crypto.createHmac("sha256", key).update(msg).digest("hex")`. -/
def hmacSha256Hex (key msg : String) : String :=
  hexEncode (hmacSha256 (strBytes key) (strBytes msg))

end Crypto

/-! ## Webhook payload data model (src/types/index.ts) -/

structure GHOwner where
  login : String
deriving DecidableEq

structure GHRepository where
  full_name : String
  clone_url : String
  isPrivate : Bool
  owner : GHOwner
  name : String
deriving DecidableEq

structure PRHead where
  ref : String
  sha : String
deriving DecidableEq

structure GHPullRequest where
  number : Nat
  head : PRHead
deriving DecidableEq

/-- The field `comment.id` is typed `number` but the route reads it defensively
(`payload.comment?.id?.toString()`), so it is modelled optional. -/
structure GHComment where
  id : Option Nat
  body : String
  userLogin : String
deriving DecidableEq

structure GitHubWebhookPayload where
  action : Option String
  repository : GHRepository
  pull_request : Option GHPullRequest
  comment : Option GHComment
deriving DecidableEq

/-- Compact JSON serialization of the typed payload, modelling
`JSON.stringify(req.body)` (interface key order, no spaces; field values
here contain no characters needing escapes). -/
def quoteJson (s : String) : String := "\"" ++ s ++ "\""

def stringifyPayload (p : GitHubWebhookPayload) : String :=
  let aStr := match p.action with
    | none => ""
    | some a => "\"action\":" ++ quoteJson a ++ ","
  let repoStr := "\"repository\":\x7b\"full_name\":" ++ quoteJson p.repository.full_name ++
    ",\"clone_url\":" ++ quoteJson p.repository.clone_url ++
    ",\"private\":" ++ (if p.repository.isPrivate then "true" else "false") ++
    ",\"owner\":\x7b\"login\":" ++ quoteJson p.repository.owner.login ++ "\x7d" ++
    ",\"name\":" ++ quoteJson p.repository.name ++ "\x7d"
  let prStr := match p.pull_request with
    | none => ""
    | some pr => ",\"pull_request\":\x7b\"number\":" ++ toString pr.number ++
        ",\"head\":\x7b\"ref\":" ++ quoteJson pr.head.ref ++
        ",\"sha\":" ++ quoteJson pr.head.sha ++ "\x7d\x7d"
  let cStr := match p.comment with
    | none => ""
    | some c => ",\"comment\":\x7b\"id\":" ++
        (match c.id with | some i => toString i | none => "null") ++
        ",\"body\":" ++ quoteJson c.body ++
        ",\"user\":\x7b\"login\":" ++ quoteJson c.userLogin ++ "\x7d\x7d"
  "\x7b" ++ aStr ++ repoStr ++ prStr ++ cStr ++ "\x7d"

/-! ## WebhookServer (webhook-server.ts) -/

/-- Embedding of `crypto.timingSafeEqual` on buffers: throws (`Except.error`) when byte
lengths differ, otherwise compares contents in constant time. -/
def timingSafeEqual (a b : String) : Except Unit Bool :=
  if a.length = b.length then Except.ok (a = b) else Except.error ()

/-- Embedding of `WebhookServer.verifySignature` (webhook-server.ts 294-303): returns
false on missing signature or secret, otherwise hex-HMACs
`JSON.stringify(payload)` with the `sha256=` prefix and compares via
`crypto.timingSafeEqual` (which can throw). -/
def verifySignature (secret : Option String) (payload : GitHubWebhookPayload)
    (signature : Option String) : Except Unit Bool :=
  match signature, secret with
  | none, _ => Except.ok false
  | some _, none => Except.ok false
  | some sig, some sec =>
    if sig = "" ∨ sec = "" then Except.ok false
    else
      let digest := "sha256=" ++ Crypto.hmacSha256Hex sec (stringifyPayload payload)
      timingSafeEqual digest sig

/-- Embedding of `WebhookServer.isValidWebhookPayload` (webhook-server.ts 308-317):
JS truthiness of the checked fields (absent repositories are modelled by
empty required strings). -/
def isValidWebhookPayload (p : GitHubWebhookPayload) : Bool :=
  p.repository.full_name ≠ "" && p.repository.clone_url ≠ "" &&
    (match p.comment with
     | some c => c.body ≠ "" && c.userLogin ≠ ""
     | none => false)

/-- Deduplication key (webhook-server.ts 178-180):
`repository.full_name`, `comment?.id?.toString() || "unknown"` and the action, dash-joined
(a missing `action` renders as "undefined" in the template literal). -/
def deduplicationKey (p : GitHubWebhookPayload) : String :=
  let commentId := match p.comment with
    | some c => match c.id with
      | some i => toString i
      | none => "unknown"
    | none => "unknown"
  p.repository.full_name ++ "-" ++ commentId ++ "-" ++
    (match p.action with | some a => a | none => "undefined")

inductive HttpResponse
  | ok200 (message : String) (jobId : Option String)
  | badRequest400 (error : String)
  | unauthorized401 (error : String)
  | serverError500 (error : String)
deriving DecidableEq

structure WebhookRequest where
  xGithubEvent : Option String
  xHubSignature256 : Option String
  payload : GitHubWebhookPayload
deriving DecidableEq

structure RouteResult where
  response : HttpResponse
  processedWebhooks : List String
  enqueuedJobIds : List String
deriving DecidableEq

/-- The POST webhook route (webhook-server.ts 139-217). `processed` is the
in-memory `processedWebhooks` set; `prep` is the outcome of
`queueWebhookJob` (`Except.ok jobId`, or `Except.error` when repository
setup / prompt building / enqueue throws, which the catch of the route maps to
HTTP 500). A `timingSafeEqual` length-mismatch throw is likewise caught
and answered 500. -/
def handleWebhook (secret : Option String) (processed : List String)
    (req : WebhookRequest) (prep : Except String String) : RouteResult :=
  let sigCheck : Except Unit Bool :=
    match secret with
    | some s =>
      if s = "" then Except.ok true
      else verifySignature (some s) req.payload req.xHubSignature256
    | none => Except.ok true
  match sigCheck with
  | Except.error _ => ⟨HttpResponse.serverError500 "Internal server error", processed, []⟩
  | Except.ok false => ⟨HttpResponse.unauthorized401 "Invalid signature", processed, []⟩
  | Except.ok true =>
    if req.xGithubEvent ≠ some "issue_comment" then
      ⟨HttpResponse.ok200 "Event ignored" none, processed, []⟩
    else if (match req.payload.action with
             | some a => a ≠ "" && a ≠ "created"
             | none => false) then
      ⟨HttpResponse.ok200 "Comment action ignored" none, processed, []⟩
    else if ¬ isValidWebhookPayload req.payload then
      ⟨HttpResponse.badRequest400 "Invalid payload structure", processed, []⟩
    else
      let key := deduplicationKey req.payload
      if processed.contains key then
        ⟨HttpResponse.ok200 "Duplicate webhook ignored" none, processed, []⟩
      else
        let processed1 := processed ++ [key]
        match prep with
        | Except.error _ => ⟨HttpResponse.serverError500 "Internal server error", processed1, []⟩
        | Except.ok jobId =>
          ⟨HttpResponse.ok200 "Webhook received and queued for processing" (some jobId),
            processed1, [jobId]⟩

/-- The hourly `setInterval` callback (webhook-server.ts 29-34):
`this.processedWebhooks.clear()`. -/
def clearDeduplicationCache (_processed : List String) : List String := []

/-- The `express-rate-limit` configuration applied to the webhook path
(webhook-server.ts 41-50). -/
structure ExpressRateLimitCfg where
  windowMs : Nat
  max : Nat
deriving DecidableEq

def webhookRateLimit : ExpressRateLimitCfg := ⟨60 * 1000, 10⟩

/-- express-rate-limit admission: a request passes iff fewer than `max`
requests from the same IP have been counted in the current window. -/
def rateLimitAllows (cfg : ExpressRateLimitCfg) (priorHitsInWindow : Nat) : Bool :=
  priorHitsInWindow < cfg.max

/-! ## Durable queue configuration (queue.ts) -/

structure BackoffOptions where
  type : String
  delay : Nat
deriving DecidableEq

structure DefaultJobOptions where
  removeOnComplete : Nat
  removeOnFail : Nat
  attempts : Nat
  backoff : BackoffOptions
deriving DecidableEq

/-- The `geminiQueue` default job options (queue.ts 20-28). -/
def defaultJobOptions : DefaultJobOptions :=
  { removeOnComplete := 50, removeOnFail := 100, attempts := 3,
    backoff := { type := "exponential", delay := 60000 } }

/-- The `rateLimiter` constants (queue.ts 32-35). -/
structure RateLimiterCfg where
  max : Nat
  duration : Nat
deriving DecidableEq

def rateLimiter : RateLimiterCfg := { max := 50, duration := 60000 }

/-- Per-add options built by `addGeminiJob` (queue.ts 137-141):
`{ jobId, ...rateLimiter }`. `max`/`duration` are not BullMQ job options;
the fields a BullMQ `Queue.add` call interprets are listed in
`bullmqJobOptionKeys` below. -/
structure AddJobOptions where
  jobId : Option String
  max : Option Nat
  duration : Option Nat
  delay : Option Nat
deriving DecidableEq

def addGeminiJobOptions (jobId : String) : AddJobOptions :=
  { jobId := some jobId, max := some rateLimiter.max,
    duration := some rateLimiter.duration, delay := none }

/-- The option keys that `Queue.add` of BullMQ interprets (BullMQ `JobsOptions`);
unknown keys in a spread object are carried but have no effect on
scheduling. -/
def bullmqJobOptionKeys : List String :=
  ["jobId", "delay", "attempts", "backoff", "priority", "lifo",
   "removeOnComplete", "removeOnFail", "repeat", "stackTraceLimit"]

/-- BullMQ exponential backoff: delay before retry after the k-th failed
attempt (k ≥ 1) is `delay * 2^(k-1)`. -/
def backoffDelay (bo : BackoffOptions) (k : Nat) : Nat :=
  if bo.type = "exponential" then bo.delay * 2 ^ (k - 1) else bo.delay

/-! ## Quota pause (queue.ts 72-86)

`pauseQueueForQuota` pauses the queue and calls a bare `setTimeout` that
resumes it after `resumeAt - Date.now()`; no handle to a previously
scheduled timer is kept, checked, or cleared. -/

structure QuotaState where
  isPaused : Bool
  pendingResumes : List Nat
deriving DecidableEq

def initialQuotaState : QuotaState := ⟨false, []⟩

/-- Embedding of `pauseQueueForQuota(resumeAt)`: `geminiQueue.pause()` then
`setTimeout(resume, resumeAt - now)` — the new timer is simply added to the
pending set. -/
def pauseQueueForQuota (resumeAt : Nat) (s : QuotaState) : QuotaState :=
  { isPaused := true, pendingResumes := s.pendingResumes ++ [resumeAt] }

/-- A scheduled resume timer firing at its due time: `geminiQueue.resume()`. -/
def fireResume (t : Nat) (s : QuotaState) : QuotaState :=
  { isPaused := false, pendingResumes := s.pendingResumes.erase t }

/-! ## Error objects and classes

`QuotaExceededError` is declared separately in orchestrator.ts and in
worker.ts; the two declarations are distinct JS classes, so the check
`error instanceof QuotaExceededError` in the worker only matches errors constructed by
the worker module itself. -/

inductive ErrClass
  | workerQuotaError
  | orchQuotaError
  | plainError
deriving DecidableEq

structure JsError where
  cls : ErrClass
  message : String
deriving DecidableEq

/-- The test `error instanceof QuotaExceededError` evaluated in worker.ts. -/
def instanceOfWorkerQuotaError (e : JsError) : Bool :=
  e.cls = ErrClass.workerQuotaError

/-! ## Orchestrator (orchestrator.ts, current version) -/

/-- The fixed indicator list of `detectQuotaExhaustion` (orchestrator.ts 269). -/
def quotaIndicators : List String :=
  ["quota", "429", "free_tier_requests", "RESOURCE_EXHAUSTED", "exceeded your current quota"]

/-- Embedding of `GeminiOrchestrator.detectQuotaExhaustion` (orchestrator.ts 268-282):
case-insensitive substring match against the indicator list. -/
def detectQuotaExhaustion (stderr : String) : Bool :=
  quotaIndicators.any (fun ind => containsSub (toLowerStr stderr) (toLowerStr ind))

/-- Embedding of `GeminiOrchestrator.enhanceErrorMessage` (orchestrator.ts 287-370). -/
def enhanceErrorMessage (exitCode : Int) (stderr : String) : String :=
  let baseMessage := s!"Gemini process failed with code {exitCode}"
  if containsSub stderr "status 429" || containsSub stderr "rate limit" ||
      containsSub stderr "quota" then
    if containsSub stderr "free_tier_requests" then
      baseMessage ++ "\n\n🚫 **Rate Limit Exceeded: Free Tier API Quota**\n\nYou\x27ve hit the free tier limit for Gemini API requests. The free tier allows only 5 requests per minute.\n\n**Solutions:**\n1. **Wait and retry**: The quota resets every minute\n2. **Upgrade to paid tier**: Visit https://ai.google.dev/pricing for higher limits\n3. **Switch to different model**: Consider using a different Gemini model with higher limits\n4. **Use API key with billing enabled**: Ensure your API key has billing configured\n\n**Current Error:**\n```\n" ++
        substringTo stderr 1000 ++ (if stderr.length > 1000 then "..." else "") ++
        "\n```\n\nPlease wait a few minutes before trying again, or upgrade your API plan for higher limits."
    else
      baseMessage ++ "\n\n🚫 **Rate Limit Exceeded**\n\nYou\x27ve exceeded the API rate limits for your current plan.\n\n**Error Details:**\n```\n" ++
        stderr ++ "\n```\n\nPlease wait and try again, or check your API quota at https://ai.google.dev/"
  else if containsSub stderr "GEMINI_API_KEY" || containsSub stderr "authentication" ||
      containsSub stderr "401" then
    baseMessage ++ "\n\n🔑 **Authentication Error**\n\nThe Gemini API key is missing or invalid.\n\n**Solutions:**\n1. Check that GEMINI_API_KEY environment variable is set\n2. Verify your API key at https://aistudio.google.com/app/apikey\n3. Ensure the API key has the necessary permissions\n\n**Error Details:**\n```\n" ++
      stderr ++ "\n```"
  else if containsSub stderr "network" || containsSub stderr "timeout" ||
      containsSub stderr "connection" then
    baseMessage ++ "\n\n🌐 **Network Connection Error**\n\nUnable to connect to the Gemini API.\n\n**Possible causes:**\n1. Network connectivity issues\n2. Firewall blocking outbound connections\n3. Temporary service outage\n\n**Error Details:**\n```\n" ++
      stderr ++ "\n```\n\nPlease check your network connection and try again."
  else
    baseMessage ++ "\nStderr: " ++ stderr

/-- Observable events of one spawned `gemini` process, in chronological
order; `t` is the wall-clock time in ms since the spawn. For the readline
paths (`executeGemini`) the stdout/stderr payloads are whole lines; for the
data-event path (`executeGeminiCLI`) they are raw chunks. -/
inductive ProcEvent
  | stdoutLine (t : Nat) (line : String)
  | stderrLine (t : Nat) (line : String)
  | closed (t : Nat) (code : Int)
  | spawnError (t : Nat) (message : String)
deriving DecidableEq

instance decEqExcept {ε α : Type} [DecidableEq ε] [DecidableEq α] : DecidableEq (Except ε α)
  | Except.ok a, Except.ok b =>
    match decEq a b with
    | isTrue h => isTrue (h ▸ rfl)
    | isFalse h => isFalse (fun hh => h (Except.ok.inj hh))
  | Except.ok _, Except.error _ => isFalse (fun hh => Except.noConfusion hh)
  | Except.error _, Except.ok _ => isFalse (fun hh => Except.noConfusion hh)
  | Except.error e, Except.error f =>
    match decEq e f with
    | isTrue h => isTrue (h ▸ rfl)
    | isFalse h => isFalse (fun hh => h (Except.error.inj hh))

/-- Settled state of the `executeGemini` promise: `outcome` is `none` while
pending, and `killedAt` records a `geminiProcess.kill()` issued by the quota
detector. -/
structure ExecRun where
  outcome : Option (Except JsError String)
  killedAt : Option Nat
deriving DecidableEq

/-- Embedding of `GeminiOrchestrator.executeGemini` (orchestrator.ts 473-522): streams
stdout/stderr line events, accumulating `output`/`errorOutput`; a stderr
line matching `detectQuotaExhaustion` kills the process and rejects with the
`QuotaExceededError` of the orchestrator module (message `API quota exhausted`); `close`
with code 0 resolves with the full accumulated output, any other code
rejects with `enhanceErrorMessage`. No timer is ever installed, so event
times never influence the outcome; the promise keeps its first settlement. -/
def executeGeminiRun : List ProcEvent → String → String → ExecRun
  | [], _, _ => ⟨none, none⟩
  | ProcEvent.stdoutLine _ line :: rest, out, errOut =>
    executeGeminiRun rest (out ++ line ++ "\n") errOut
  | ProcEvent.stderrLine t line :: rest, out, errOut =>
    if detectQuotaExhaustion line then
      ⟨some (Except.error ⟨ErrClass.orchQuotaError, "API quota exhausted"⟩), some t⟩
    else executeGeminiRun rest out (errOut ++ line ++ "\n")
  | ProcEvent.closed _ code :: _, out, errOut =>
    if code = 0 then ⟨some (Except.ok out), none⟩
    else ⟨some (Except.error ⟨ErrClass.plainError, enhanceErrorMessage code errOut⟩), none⟩
  | ProcEvent.spawnError _ msg :: _, _, _ =>
    ⟨some (Except.error ⟨ErrClass.plainError, msg⟩), none⟩

def executeGemini (events : List ProcEvent) : ExecRun :=
  executeGeminiRun events "" ""

/-! ## Legacy orchestrator execution path (orchestrator.ts, previous
version, `executeGeminiCLI` 189-245) -/

def GEMINI_TIMEOUT_MS : Nat := 30 * 60 * 1000

/-- First event-driven settlement of the `executeGeminiCLI` promise:
`(settle time, outcome)`; data chunks accumulate without added newlines. -/
def executeGeminiCLIRun : List ProcEvent → String → String → Option (Nat × Except String String)
  | [], _, _ => none
  | ProcEvent.stdoutLine _ d :: rest, so, se => executeGeminiCLIRun rest (so ++ d) se
  | ProcEvent.stderrLine _ d :: rest, so, se => executeGeminiCLIRun rest so (se ++ d)
  | ProcEvent.closed t code :: _, so, se =>
    if code = 0 then some (t, Except.ok so)
    else some (t, Except.error (s!"Gemini process failed with code {code}" ++ "\nStderr: " ++ se))
  | ProcEvent.spawnError t msg :: _, _, _ => some (t, Except.error msg)

/-- Embedding of `executeGeminiCLI` (legacy orchestrator 189-245) with its unconditional
30-minute `setTimeout`: if no event settles the promise before
`GEMINI_TIMEOUT_MS`, the timer fires at that instant, issues
`kill("SIGTERM")` and rejects with `Gemini process timeout`. Returns
`(settle time, outcome, kill issued by the timer)`. -/
def executeGeminiCLI (events : List ProcEvent) : Nat × Except String String × Bool :=
  match executeGeminiCLIRun events "" "" with
  | some (t, oc) =>
    if t < GEMINI_TIMEOUT_MS then (t, oc, false)
    else (GEMINI_TIMEOUT_MS, Except.error "Gemini process timeout", true)
  | none => (GEMINI_TIMEOUT_MS, Except.error "Gemini process timeout", true)

/-! ## Worker processor (worker.ts, current version) -/

structure ProjectConfigM where
  type : String
deriving DecidableEq

/-- Embedding of `GeminiJobData` (queue.ts 107-115), restricted to the fields the worker
reads (`payload`/`env`/`timestamp` feed only logging and the orchestrator
workspace path). -/
structure GeminiJobData where
  repoPath : String
  promptFile : String
  projectConfig : Option ProjectConfigM
  jobId : String
deriving DecidableEq

/-- Embedding of `GeminiJobResult` (queue.ts 118-125); `timestamp` is an ISO wall-clock
string and is omitted. -/
structure GeminiJobResult where
  success : Bool
  output : String
  projectType : String
  commits : List String
  duration : Nat
deriving DecidableEq

/-- Side effects the processor performs on the queue/event channel. -/
structure WorkerEffects where
  pausedForQuota : List Nat
  quotaExhaustedEvents : List Nat
  requeued : List (String × Nat)
deriving DecidableEq

def noEffects : WorkerEffects := ⟨[], [], []⟩

/-- The `Worker("gemini-jobs")` processor of the current worker.ts:
validates the job data (JS truthiness — empty strings are falsy), runs
`executeGemini`, and in the catch branch recognizes quota exhaustion only
when `error instanceof QuotaExceededError` (the own class of the worker
module) or the message contains `429`; recognized quota errors pause the queue for
1 hour and emit `quota-exhausted`, but the job is deliberately not
re-enqueued. Every execution failure is returned as a `success:false`
result (the processor throws only for a missing jobId), so BullMQ records
the job as completed. `exec` is the settled `executeGemini` outcome, `now`
is `Date.now()` in the catch branch, `duration` the elapsed time. -/
def processGeminiJob (data : GeminiJobData) (exec : Except JsError String)
    (now duration : Nat) : Except JsError GeminiJobResult × WorkerEffects :=
  if data.jobId = "" then
    (Except.error ⟨ErrClass.plainError, "Job missing required jobId"⟩, noEffects)
  else
    match data.projectConfig with
    | none =>
      (Except.ok ⟨false, "Job missing required project configuration", "unknown", [], duration⟩,
        noEffects)
    | some cfg =>
      if cfg.type = "" then
        (Except.ok ⟨false, "Job missing required project configuration", "unknown", [], duration⟩,
          noEffects)
      else if data.repoPath = "" ∨ data.promptFile = "" then
        (Except.ok ⟨false, "Job missing required repository path or prompt file", cfg.type, [],
          duration⟩, noEffects)
      else
        match exec with
        | Except.ok output => (Except.ok ⟨true, output, cfg.type, [], duration⟩, noEffects)
        | Except.error e =>
          if instanceOfWorkerQuotaError e || containsSub e.message "429" then
            let resumeAt := now + 3600 * 1000
            (Except.ok ⟨false, "API quota exhausted - job paused until quota resets", cfg.type,
              [], duration⟩,
              ⟨[resumeAt], [resumeAt], []⟩)
          else
            (Except.ok ⟨false, e.message, cfg.type, [], duration⟩, noEffects)

/-- The catch branch of the previous worker.ts processor (re-enqueue variant):
on a recognized quota error it pauses for 1 hour, emits `quota-exhausted`,
re-enqueues the job data under `jobId + "-requeued"` with a 1-hour delay,
and throws; any other error is rethrown, feeding the BullMQ retry policy. -/
def processGeminiJobRequeueVariant (data : GeminiJobData)
    (exec : Except JsError GeminiJobResult) (now : Nat) :
    Except JsError GeminiJobResult × WorkerEffects :=
  match exec with
  | Except.ok r => (Except.ok r, noEffects)
  | Except.error e =>
    if instanceOfWorkerQuotaError e || containsSub e.message "429" then
      let resumeAt := now + 3600 * 1000
      (Except.error ⟨ErrClass.plainError, "Quota exceeded, job rescheduled."⟩,
        ⟨[resumeAt], [resumeAt], [(data.jobId ++ "-requeued", 3600 * 1000)]⟩)
    else (Except.error e, noEffects)

/-! ## BullMQ attempt/retry semantics

A job configured with `attempts` total attempts is re-run only when the
processor throws; a returned value completes the job. The delay before the
retry following the k-th failed attempt is `backoffDelay`. -/

inductive FinalStatus
  | completed (r : GeminiJobResult)
  | failedJob (message : String)
deriving DecidableEq

/-- Run up to `remaining` attempts, the next one numbered `k`; returns the
final status, the number of the last attempt made, and the backoff delays
slept between attempts. -/
def runAttemptsGo (bo : BackoffOptions) (processor : Nat → Except JsError GeminiJobResult) :
    Nat → Nat → FinalStatus × Nat × List Nat
  | 0, k => (FinalStatus.failedJob "no attempts", k, [])
  | 1, k =>
    (match processor k with
     | Except.ok r => FinalStatus.completed r
     | Except.error e => FinalStatus.failedJob e.message, k, [])
  | n + 2, k =>
    match processor k with
    | Except.ok r => (FinalStatus.completed r, k, [])
    | Except.error _ =>
      let rest := runAttemptsGo bo processor (n + 1) (k + 1)
      (rest.1, rest.2.1, backoffDelay bo k :: rest.2.2)

/-- The life of a job under `defaultJobOptions` (attempts 3, exponential backoff
from 60000 ms). -/
def runJob (processor : Nat → Except JsError GeminiJobResult) : FinalStatus × Nat × List Nat :=
  runAttemptsGo defaultJobOptions.backoff processor defaultJobOptions.attempts 1

/-! ## Worker admission (BullMQ worker scheduling)

A BullMQ worker dequeues a waiting job whenever it has a free concurrency
slot; a rate limiter constrains admission only when the worker is created
with a `limiter` option. The current worker.ts creates its worker with
`{ concurrency: 2 }` and no limiter. -/

structure WorkerOptions where
  concurrency : Nat
  limiter : Option RateLimiterCfg
deriving DecidableEq

/-- Worker options of `new Worker("gemini-jobs", ...)` with concurrency 2 and a connection. -/
def geminiWorkerOptions : WorkerOptions := { concurrency := 2, limiter := none }

/-- Number of recorded job starts inside the sliding window ending at `t`. -/
def startsInWindow (startLog : List Nat) (t winMs : Nat) : Nat :=
  (startLog.filter (fun s => s ≤ t && t < s + winMs)).length

/-- A start at time `t` is admissible when a concurrency slot is free and,
if a limiter is configured, fewer than `max` starts happened in the last
`duration` ms. -/
def admissible (opts : WorkerOptions) (active : Nat) (startLog : List Nat) (t : Nat) : Bool :=
  active < opts.concurrency &&
    (match opts.limiter with
     | none => true
     | some l => startsInWindow startLog t l.duration < l.max)

inductive AdmEvent
  | start (t : Nat)
  | finish (t : Nat)
deriving DecidableEq

/-- Whether a chronological start/finish trace is realizable under the
given worker options. -/
def validTrace (opts : WorkerOptions) : List AdmEvent → Nat → List Nat → Bool
  | [], _, _ => true
  | AdmEvent.start t :: rest, active, log =>
    admissible opts active log t && validTrace opts rest (active + 1) (t :: log)
  | AdmEvent.finish _ :: rest, active, log =>
    decide (0 < active) && validTrace opts rest (active - 1) log

/-- The start times of a trace. -/
def traceStarts : List AdmEvent → List Nat
  | [] => []
  | AdmEvent.start t :: rest => t :: traceStarts rest
  | AdmEvent.finish _ :: rest => traceStarts rest

/-- A burst of 51 back-to-back zero-length executions within one minute. -/
def burstTrace : List AdmEvent :=
  (List.range 51).flatMap (fun i => [AdmEvent.start i, AdmEvent.finish i])

/-! ## Sample inputs (concrete instances used to evaluate the embeddings) -/

def sampleRepo : GHRepository :=
  { full_name := "org/app", clone_url := "https://github.com/org/app.git",
    isPrivate := false, owner := { login := "org" }, name := "app" }

def samplePayload : GitHubWebhookPayload :=
  { action := some "created", repository := sampleRepo, pull_request := none,
    comment := some { id := some 555, body := "@gemini add input validation",
                      userLogin := "wjorgensen" } }

def sampleRequest : WebhookRequest :=
  { xGithubEvent := some "issue_comment", xHubSignature256 := none, payload := samplePayload }

def sampleJobData : GeminiJobData :=
  { repoPath := "/workspace/org/app", promptFile := "/workspace/org/app/.gemini-prompt.txt",
    projectConfig := some { type := "nextjs" }, jobId := "gemini-1700000000000-abc123def" }

/-- A non-quota execution failure (the CLI binary is absent). -/
def spawnFailure : JsError := { cls := ErrClass.plainError, message := "spawn gemini ENOENT" }

/-- The accumulated output of `n` stdout lines "x". -/
def repeatedLine : Nat → String
  | 0 => ""
  | n + 1 => "x\n" ++ repeatedLine n

/-- A process that writes `n` stdout lines and then exits 0. -/
def outBurst (n : Nat) : List ProcEvent :=
  List.replicate n (ProcEvent.stdoutLine 0 "x") ++ [ProcEvent.closed 1000 0]

end GeminiTeam

namespace GeminiTeam.DurableQueue

/-!  ## Durable Queue dequeue/locking state machine

Modelled from the spec: the dequeue locking that guarantees at-most-one
concurrent execution per job id is implemented inside the external BullMQ
library (Redis job locks); only its caller and configuration are under
src/. Per the spec, the Durable Queue exclusively owns job status
transitions `waiting → active → {completed | failed}`, a worker dequeues
only waiting jobs, and a failed job re-enters `waiting` via retry. -/

inductive JobStatus
  | waiting
  | active (worker : Nat)
  | completed
  | failed
deriving DecidableEq

abbrev QState := String → Option JobStatus

def initState : QState := fun _ => none

def setJob (s : QState) (id : String) (st : JobStatus) : QState :=
  fun j => if j = id then some st else s j

inductive QAct
  | enqueue (id : String)
  | dequeue (id : String) (worker : Nat)
  | complete (id : String)
  | failJob (id : String)
  | retry (id : String)
deriving DecidableEq

/-- Guarded transition: `none` when the action is not enabled. -/
def applyAct (s : QState) : QAct → Option QState
  | QAct.enqueue id =>
    match s id with
    | none => some (setJob s id JobStatus.waiting)
    | some _ => none
  | QAct.dequeue id w =>
    match s id with
    | some JobStatus.waiting => some (setJob s id (JobStatus.active w))
    | _ => none
  | QAct.complete id =>
    match s id with
    | some (JobStatus.active _) => some (setJob s id JobStatus.completed)
    | _ => none
  | QAct.failJob id =>
    match s id with
    | some (JobStatus.active _) => some (setJob s id JobStatus.failed)
    | _ => none
  | QAct.retry id =>
    match s id with
    | some JobStatus.failed => some (setJob s id JobStatus.waiting)
    | _ => none

def runTrace (s : QState) : List QAct → Option QState
  | [] => some s
  | a :: rest =>
    match applyAct s a with
    | some s1 => runTrace s1 rest
    | none => none

end GeminiTeam.DurableQueue

namespace GeminiTeam

/-! ## Embedding sanity checks -/

/-- The hash embedding reproduces the FIPS 180-4 SHA-256 test vector. -/
theorem sha256_known_vector : Crypto.hexEncode (Crypto.sha256 (Crypto.strBytes "abc")) =
    "ba7816bf8f01cfea414140de5dae2223b00361a396177a9cb410ff61f20015ad" := by decide

/-- The hash embedding reproduces the standard HMAC-SHA256 test vector. -/
theorem hmac_known_vector :
    Crypto.hmacSha256Hex "key" "The quick brown fox jumps over the lazy dog" =
    "f7bc83f430538424b13298e6aa6fb143ef4d59a14946175997479dbc2d1a3cd8" := by decide

/-- The retry policy of `defaultJobOptions` does apply to thrown errors: a
processor that throws on every attempt fails terminally after exactly 3
attempts with backoff delays 60 s and 120 s. Only thrown errors feed it. -/
theorem retry_policy_applies_to_thrown_errors (e : JsError) :
    runJob (fun _ => Except.error e) =
      (FinalStatus.failedJob e.message, 3, [60000, 120000]) := by
  rfl

/-! ## C1 — quota pause resume timer -/

/-- C1 counterexample: two quota signals inside the cool-down window leave
TWO outstanding resume timers (`pauseQueueForQuota` stores and cancels no
timer handle), and the first timer firing already resumes the queue at the
EARLIER resume time — not one effective resume at the later time. -/
theorem C1_counterexample :
    ¬ ((pauseQueueForQuota 3601000 (pauseQueueForQuota 3600000
        initialQuotaState)).pendingResumes.length ≤ 1) ∧
    (pauseQueueForQuota 3601000 (pauseQueueForQuota 3600000
        initialQuotaState)).pendingResumes = [3600000, 3601000] ∧
    (fireResume 3600000 (pauseQueueForQuota 3601000 (pauseQueueForQuota 3600000
        initialQuotaState))).isPaused = false := by
  decide

/-- C1 (amended): every call to `pauseQueueForQuota` pauses the queue and
schedules an additional independent resume timer, cancelling none; after
two quota signals with resume times r1 then r2, both timers are
outstanding, and the earlier timer firing resumes the queue with the later
timer still pending. -/
theorem C1_amended (r1 r2 : Nat) (s : QuotaState) :
    (pauseQueueForQuota r1 s).isPaused = true ∧
    (pauseQueueForQuota r1 s).pendingResumes = s.pendingResumes ++ [r1] ∧
    (pauseQueueForQuota r2 (pauseQueueForQuota r1 initialQuotaState)).pendingResumes
      = [r1, r2] ∧
    (fireResume r1 (pauseQueueForQuota r2 (pauseQueueForQuota r1
        initialQuotaState))).isPaused = false ∧
    (fireResume r1 (pauseQueueForQuota r2 (pauseQueueForQuota r1
        initialQuotaState))).pendingResumes = [r2] := by
  refine ⟨rfl, rfl, rfl, rfl, ?_⟩
  show List.erase [r1, r2] r1 = [r2]
  simp [List.erase_cons_head]

/-! ## C2 — retry ceiling for non-quota failures -/

/-- C2: a job whose execution fails with a non-quota error on every attempt
is NOT retried: the current worker processor catches the error and returns a
`success:false` result, so BullMQ records the job as completed on attempt 1
— no backoff is slept and the job never reaches `failed` status, although
`defaultJobOptions` configures attempts 3 with exponential backoff from
60 s (see `retry_policy_applies_to_thrown_errors`). -/
theorem C2_theorem :
    runJob (fun _ => (processGeminiJob sampleJobData (Except.error spawnFailure) 0 1234).1) =
      (FinalStatus.completed ⟨false, "spawn gemini ENOENT", "nextjs", [], 1234⟩, 1, []) ∧
    (processGeminiJob sampleJobData (Except.error spawnFailure) 0 1234).2 = noEffects := by
  decide

/-! ## C3 — quota signal handling -/

/-- C3: a recognized quota signal (a stderr line containing
RESOURCE_EXHAUSTED) makes `executeGemini` reject with the ORCHESTRATOR
module `QuotaExceededError` (message `API quota exhausted`); the worker
catch tests `instanceof` against its OWN (distinct) `QuotaExceededError`
class and `message.includes("429")`, both false here, so the generic failure
branch runs: the queue is not paused, no quota-exhausted event is emitted,
and the job is not re-enqueued — contradicting the claimed quota handling. -/
theorem C3_theorem :
    detectQuotaExhaustion "RESOURCE_EXHAUSTED" = true ∧
    executeGemini [ProcEvent.stderrLine 5000 "RESOURCE_EXHAUSTED"] =
      ⟨some (Except.error ⟨ErrClass.orchQuotaError, "API quota exhausted"⟩), some 5000⟩ ∧
    instanceOfWorkerQuotaError ⟨ErrClass.orchQuotaError, "API quota exhausted"⟩ = false ∧
    containsSub "API quota exhausted" "429" = false ∧
    processGeminiJob sampleJobData
      (Except.error ⟨ErrClass.orchQuotaError, "API quota exhausted"⟩) 1700000000000 60000 =
      (Except.ok ⟨false, "API quota exhausted", "nextjs", [], 60000⟩, noEffects) := by
  decide

/-- Even when the quota branch of the worker IS taken (an error message
containing `429`), the current processor pauses the queue for one hour and
emits the quota event but re-enqueues nothing; only the previous worker
variant re-enqueued the job with the matching 1-hour delay. -/
theorem quota_branch_no_requeue (now dur : Nat) :
    (processGeminiJob sampleJobData
        (Except.error ⟨ErrClass.plainError, "status 429"⟩) now dur).2 =
      ⟨[now + 3600 * 1000], [now + 3600 * 1000], []⟩ ∧
    (processGeminiJobRequeueVariant sampleJobData
        (Except.error ⟨ErrClass.plainError, "status 429"⟩) now).2 =
      ⟨[now + 3600 * 1000], [now + 3600 * 1000],
        [("gemini-1700000000000-abc123def-requeued", 3600 * 1000)]⟩ := by
  constructor <;> rfl

end GeminiTeam


namespace GeminiTeam

/-! ## C4 — dedup idempotence -/

/-- C4: a first valid created-comment trigger enqueues exactly one job; an
identical second delivery within the dedup window is answered
accepted-but-ignored with no enqueue; after the hourly cache clear, an
identical repeat submission enqueues a new job. -/
theorem C4_theorem (processed : List String) (req : WebhookRequest)
    (j1 j3 : String) (prep2 : Except String String)
    (hevent : req.xGithubEvent = some "issue_comment")
    (haction : req.payload.action = some "created")
    (hvalid : isValidWebhookPayload req.payload = true)
    (hnew : processed.contains (deduplicationKey req.payload) = false) :
    (handleWebhook none processed req (Except.ok j1)).response =
      HttpResponse.ok200 "Webhook received and queued for processing" (some j1) ∧
    (handleWebhook none processed req (Except.ok j1)).enqueuedJobIds = [j1] ∧
    (handleWebhook none
        (handleWebhook none processed req (Except.ok j1)).processedWebhooks
        req prep2).response = HttpResponse.ok200 "Duplicate webhook ignored" none ∧
    (handleWebhook none
        (handleWebhook none processed req (Except.ok j1)).processedWebhooks
        req prep2).enqueuedJobIds = [] ∧
    (handleWebhook none
        (clearDeduplicationCache (handleWebhook none
          (handleWebhook none processed req (Except.ok j1)).processedWebhooks
          req prep2).processedWebhooks)
        req (Except.ok j3)).response =
      HttpResponse.ok200 "Webhook received and queued for processing" (some j3) ∧
    (handleWebhook none
        (clearDeduplicationCache (handleWebhook none
          (handleWebhook none processed req (Except.ok j1)).processedWebhooks
          req prep2).processedWebhooks)
        req (Except.ok j3)).enqueuedJobIds = [j3] := by
  have hnew1 : deduplicationKey req.payload ∉ processed := by simpa using hnew
  have e1 : handleWebhook none processed req (Except.ok j1) =
      ⟨HttpResponse.ok200 "Webhook received and queued for processing" (some j1),
        processed ++ [deduplicationKey req.payload], [j1]⟩ := by
    unfold handleWebhook
    simp [hevent, haction, hvalid, hnew1]
  have e2 : handleWebhook none (processed ++ [deduplicationKey req.payload]) req prep2 =
      ⟨HttpResponse.ok200 "Duplicate webhook ignored" none,
        processed ++ [deduplicationKey req.payload], []⟩ := by
    unfold handleWebhook
    simp [hevent, haction, hvalid]
  have e3 : handleWebhook none [] req (Except.ok j3) =
      ⟨HttpResponse.ok200 "Webhook received and queued for processing" (some j3),
        [deduplicationKey req.payload], [j3]⟩ := by
    unfold handleWebhook
    simp [hevent, haction, hvalid]
  rw [e1]
  rw [show (⟨HttpResponse.ok200 "Webhook received and queued for processing" (some j1),
      processed ++ [deduplicationKey req.payload], [j1]⟩ : RouteResult).processedWebhooks =
      processed ++ [deduplicationKey req.payload] from rfl]
  rw [e2]
  rw [show (⟨HttpResponse.ok200 "Duplicate webhook ignored" none,
      processed ++ [deduplicationKey req.payload], []⟩ : RouteResult).processedWebhooks =
      processed ++ [deduplicationKey req.payload] from rfl]
  rw [show clearDeduplicationCache (processed ++ [deduplicationKey req.payload]) = [] from rfl]
  rw [e3]
  exact ⟨rfl, rfl, rfl, rfl, rfl, rfl⟩

/-- C4 witness: the scenario at a concrete trigger (repository org/app,
comment id 555, action created). -/
theorem C4_witness :
    sampleRequest.xGithubEvent = some "issue_comment" ∧
    samplePayload.action = some "created" ∧
    isValidWebhookPayload samplePayload = true ∧
    ([] : List String).contains (deduplicationKey samplePayload) = false ∧
    ((handleWebhook none [] sampleRequest (Except.ok "gemini-1")).response =
      HttpResponse.ok200 "Webhook received and queued for processing" (some "gemini-1") ∧
    (handleWebhook none [] sampleRequest (Except.ok "gemini-1")).enqueuedJobIds = ["gemini-1"] ∧
    (handleWebhook none
        (handleWebhook none [] sampleRequest (Except.ok "gemini-1")).processedWebhooks
        sampleRequest (Except.ok "gemini-ignored")).response =
      HttpResponse.ok200 "Duplicate webhook ignored" none ∧
    (handleWebhook none
        (handleWebhook none [] sampleRequest (Except.ok "gemini-1")).processedWebhooks
        sampleRequest (Except.ok "gemini-ignored")).enqueuedJobIds = [] ∧
    (handleWebhook none
        (clearDeduplicationCache (handleWebhook none
          (handleWebhook none [] sampleRequest (Except.ok "gemini-1")).processedWebhooks
          sampleRequest (Except.ok "gemini-ignored")).processedWebhooks)
        sampleRequest (Except.ok "gemini-2")).response =
      HttpResponse.ok200 "Webhook received and queued for processing" (some "gemini-2") ∧
    (handleWebhook none
        (clearDeduplicationCache (handleWebhook none
          (handleWebhook none [] sampleRequest (Except.ok "gemini-1")).processedWebhooks
          sampleRequest (Except.ok "gemini-ignored")).processedWebhooks)
        sampleRequest (Except.ok "gemini-2")).enqueuedJobIds = ["gemini-2"]) :=
  ⟨rfl, rfl, by decide, by decide,
    C4_theorem [] sampleRequest "gemini-1" "gemini-2" (Except.ok "gemini-ignored")
      rfl rfl (by decide) (by decide)⟩

/-! ## C10 — dedup key survives enqueue failure -/

/-- C10: the dedup key is inserted before job preparation; when preparation
throws, the route answers 500 and enqueues nothing, yet the key stays in
the processed set, so an identical redelivery within the window is answered
as a duplicate without ever enqueueing a job. -/
theorem C10_theorem (processed : List String) (req : WebhookRequest)
    (emsg : String) (prep2 : Except String String)
    (hevent : req.xGithubEvent = some "issue_comment")
    (haction : req.payload.action = some "created")
    (hvalid : isValidWebhookPayload req.payload = true)
    (hnew : processed.contains (deduplicationKey req.payload) = false) :
    (handleWebhook none processed req (Except.error emsg)).response =
      HttpResponse.serverError500 "Internal server error" ∧
    (handleWebhook none processed req (Except.error emsg)).enqueuedJobIds = [] ∧
    (handleWebhook none processed req (Except.error emsg)).processedWebhooks =
      processed ++ [deduplicationKey req.payload] ∧
    (handleWebhook none
        (handleWebhook none processed req (Except.error emsg)).processedWebhooks
        req prep2).response = HttpResponse.ok200 "Duplicate webhook ignored" none ∧
    (handleWebhook none
        (handleWebhook none processed req (Except.error emsg)).processedWebhooks
        req prep2).enqueuedJobIds = [] := by
  have hnew1 : deduplicationKey req.payload ∉ processed := by simpa using hnew
  have e1 : handleWebhook none processed req (Except.error emsg) =
      ⟨HttpResponse.serverError500 "Internal server error",
        processed ++ [deduplicationKey req.payload], []⟩ := by
    unfold handleWebhook
    simp [hevent, haction, hvalid, hnew1]
  have e2 : handleWebhook none (processed ++ [deduplicationKey req.payload]) req prep2 =
      ⟨HttpResponse.ok200 "Duplicate webhook ignored" none,
        processed ++ [deduplicationKey req.payload], []⟩ := by
    unfold handleWebhook
    simp [hevent, haction, hvalid]
  rw [e1]
  rw [show (⟨HttpResponse.serverError500 "Internal server error",
      processed ++ [deduplicationKey req.payload], []⟩ : RouteResult).processedWebhooks =
      processed ++ [deduplicationKey req.payload] from rfl]
  rw [e2]
  exact ⟨rfl, rfl, rfl, rfl, rfl⟩

/-- C10 witness: the failure-then-redelivery scenario at the concrete
trigger, with preparation failing on the first delivery and (vacuously)
succeeding on the redelivery. -/
theorem C10_witness :
    sampleRequest.xGithubEvent = some "issue_comment" ∧
    samplePayload.action = some "created" ∧
    isValidWebhookPayload samplePayload = true ∧
    ([] : List String).contains (deduplicationKey samplePayload) = false ∧
    ((handleWebhook none [] sampleRequest (Except.error "clone failed")).response =
      HttpResponse.serverError500 "Internal server error" ∧
    (handleWebhook none [] sampleRequest (Except.error "clone failed")).enqueuedJobIds = [] ∧
    (handleWebhook none [] sampleRequest (Except.error "clone failed")).processedWebhooks =
      [] ++ [deduplicationKey samplePayload] ∧
    (handleWebhook none
        (handleWebhook none [] sampleRequest (Except.error "clone failed")).processedWebhooks
        sampleRequest (Except.ok "gemini-1")).response =
      HttpResponse.ok200 "Duplicate webhook ignored" none ∧
    (handleWebhook none
        (handleWebhook none [] sampleRequest (Except.error "clone failed")).processedWebhooks
        sampleRequest (Except.ok "gemini-1")).enqueuedJobIds = []) :=
  ⟨rfl, rfl, by decide, by decide,
    C10_theorem [] sampleRequest "clone failed" (Except.ok "gemini-1")
      rfl rfl (by decide) (by decide)⟩

end GeminiTeam

namespace GeminiTeam

/-! ## C6 — output retention -/

/-- Lemma: `executeGemini` accumulates every stdout line into `output` and resolves
with all of it. -/
theorem executeGeminiRun_replicate (n : Nat) : ∀ (out errOut : String),
    executeGeminiRun
      (List.replicate n (ProcEvent.stdoutLine 0 "x") ++ [ProcEvent.closed 1000 0]) out errOut
      = ⟨some (Except.ok (out ++ repeatedLine n)), none⟩ := by
  induction n with
  | zero =>
    intro out errOut
    show (⟨some (Except.ok out), none⟩ : ExecRun) = _
    rw [show repeatedLine 0 = "" from rfl]
    simp
  | succ n ih =>
    intro out errOut
    rw [List.replicate_succ, List.cons_append]
    show executeGeminiRun _ (out ++ "x" ++ "\n") errOut = _
    rw [ih]
    rw [show repeatedLine (n + 1) = "x\n" ++ repeatedLine n from rfl]
    rw [String.append_assoc out "x" "\n",
      show ("x" : String) ++ "\n" = "x\n" by decide,
      String.append_assoc out "x\n" (repeatedLine n)]

theorem newlineCount_repeatedLine (n : Nat) : newlineCount (repeatedLine n) = n := by
  induction n with
  | zero => rfl
  | succ n ih =>
    show newlineCount ("x\n" ++ repeatedLine n) = n + 1
    unfold newlineCount at ih ⊢
    rw [String.data_append, List.countP_append, ih]
    rw [show ("x\n" : String).data.countP (· = '\n') = 1 from rfl]
    omega

/-- C6: a process writing 100000 stdout lines leaves `executeGemini`
resolving with ALL 100000 lines — `output += line` plus a newline keeps an
unbounded in-memory buffer, and the worker stores that full string as the
output of the job result; no trailing window of 1000 lines is applied anywhere
on this path. -/
theorem C6_theorem :
    (executeGemini (outBurst 100000)).outcome = some (Except.ok (repeatedLine 100000)) ∧
    newlineCount (repeatedLine 100000) = 100000 ∧
    ¬ (newlineCount (repeatedLine 100000) ≤ 1000) ∧
    (processGeminiJob sampleJobData (Except.ok (repeatedLine 100000)) 0 3000).1 =
      Except.ok ⟨true, repeatedLine 100000, "nextjs", [], 3000⟩ := by
  refine ⟨?_, ?_, ?_, rfl⟩
  · show (executeGeminiRun (outBurst 100000) "" "").outcome = _
    rw [show outBurst 100000 =
        List.replicate 100000 (ProcEvent.stdoutLine 0 "x") ++ [ProcEvent.closed 1000 0] from rfl]
    rw [executeGeminiRun_replicate]
    rw [String.empty_append]
  · exact newlineCount_repeatedLine 100000
  · rw [newlineCount_repeatedLine]
    omega

/-! ## C7 — wall-clock timeout -/

/-- C7 counterexample: on the current execution path (`executeGemini`, the
one the worker calls) there is no timer at all — a process still running two
hours in settles normally with code 0 and is never killed, although
`GEMINI_TIMEOUT_MS` (30 minutes) has long passed. -/
theorem C7_counterexample :
    executeGemini [ProcEvent.closed 7200000 0] = ⟨some (Except.ok ""), none⟩ ∧
    GEMINI_TIMEOUT_MS < 7200000 := by
  decide

/-- C7 (amended): only the legacy `executeGeminiCLI` path enforces the
30-minute wall clock: whenever no process event settles its promise before
`GEMINI_TIMEOUT_MS`, the timer fires at exactly 30 minutes, SIGTERMs the
process and rejects with `Gemini process timeout`; the current
`executeGemini` path installs no timer, so a clean exit at ANY time T
resolves normally with no kill. -/
theorem C7_amended (events : List ProcEvent) (T : Nat)
    (h : ∀ t oc, executeGeminiCLIRun events "" "" = some (t, oc) → GEMINI_TIMEOUT_MS ≤ t) :
    executeGeminiCLI events = (GEMINI_TIMEOUT_MS, Except.error "Gemini process timeout", true) ∧
    executeGemini [ProcEvent.closed T 0] = ⟨some (Except.ok ""), none⟩ := by
  constructor
  · unfold executeGeminiCLI
    cases hr : executeGeminiCLIRun events "" "" with
    | none => rfl
    | some p =>
      obtain ⟨t, oc⟩ := p
      show (if t < GEMINI_TIMEOUT_MS then (t, oc, false)
            else (GEMINI_TIMEOUT_MS, Except.error "Gemini process timeout", true)) = _
      rw [if_neg (Nat.not_lt.mpr (h t oc hr))]
  · rfl

/-- C7 witness: a process closing exactly at the 30-minute mark is
timed out by the legacy path, while the current path lets a process
closing at 9999999 ms (167 minutes) complete normally. -/
theorem C7_witness :
    (∀ t oc, executeGeminiCLIRun [ProcEvent.closed 1800000 0] "" "" = some (t, oc) →
      GEMINI_TIMEOUT_MS ≤ t) ∧
    executeGeminiCLI [ProcEvent.closed 1800000 0] =
      (GEMINI_TIMEOUT_MS, Except.error "Gemini process timeout", true) ∧
    executeGemini [ProcEvent.closed 9999999 0] = ⟨some (Except.ok ""), none⟩ := by
  have h : ∀ t oc, executeGeminiCLIRun [ProcEvent.closed 1800000 0] "" "" = some (t, oc) →
      GEMINI_TIMEOUT_MS ≤ t := by
    intro t oc hr
    rw [show executeGeminiCLIRun [ProcEvent.closed 1800000 0] "" "" =
        some (1800000, Except.ok "") from rfl] at hr
    injection hr with hp
    rw [show t = (1800000, Except.ok (α := String) "").1 from by rw [hp]]
    decide
  exact ⟨h, (C7_amended [ProcEvent.closed 1800000 0] 9999999 h).1,
    (C7_amended [ProcEvent.closed 1800000 0] 9999999 h).2⟩

end GeminiTeam

namespace GeminiTeam

/-! ## C8 — rate limiting -/

/-- C8 counterexample: under the options the worker is actually created
with (concurrency 2, NO limiter — the queue.ts `rateLimiter` values are only
spread into per-job options, see `C8_amended`) the admission model
validates a trace in which 51 jobs enter active execution within a single
60-second window; the same trace is rejected if the 50-per-60s limiter
were installed on the worker. -/
theorem C8_counterexample :
    validTrace geminiWorkerOptions burstTrace 0 [] = true ∧
    startsInWindow (traceStarts burstTrace) 50 60000 = 51 ∧
    ¬ (startsInWindow (traceStarts burstTrace) 50 60000 ≤ 50) ∧
    validTrace { concurrency := 2, limiter := some rateLimiter } burstTrace 0 [] = false := by
  decide

/-- C8 (amended): no sliding-window limiter shapes admission into active
execution — the 50-per-60s `rateLimiter` constants are spread into each
add-options of each job, whose `max`/`duration` keys the BullMQ job options do not
interpret, and the worker is created without a `limiter`; what does exist
is the Express middleware rejecting more than 10 webhook requests per
minute per IP at intake. -/
theorem C8_amended :
    geminiWorkerOptions.limiter = none ∧
    geminiWorkerOptions.concurrency = 2 ∧
    addGeminiJobOptions "j" = ⟨some "j", some 50, some 60000, none⟩ ∧
    rateLimiter = ⟨50, 60000⟩ ∧
    ¬ ("max" ∈ bullmqJobOptionKeys) ∧
    ¬ ("duration" ∈ bullmqJobOptionKeys) ∧
    rateLimitAllows webhookRateLimit 9 = true ∧
    rateLimitAllows webhookRateLimit 10 = false := by
  decide

/-! ## HMAC digest length facts (for the signature check) -/

theorem round_length (st : List Nat) (k w : Nat) :
    (Crypto.round st k w).length = st.length := by
  unfold Crypto.round
  split
  · rfl
  · rfl

theorem foldl_round_length (l : List (Nat × Nat)) (st : List Nat) :
    (l.foldl (fun st kw => Crypto.round st kw.1 kw.2) st).length = st.length := by
  induction l generalizing st with
  | nil => rfl
  | cons p t ih => rw [List.foldl_cons, ih, round_length]

theorem compress_length (h block : List Nat) (hlen : h.length = 8) :
    (Crypto.compress h block).length = 8 := by
  unfold Crypto.compress
  rw [List.length_map, List.length_zip, foldl_round_length, hlen]
  simp

theorem foldl_compress_length (blocks : List (List Nat)) (h : List Nat) (hl : h.length = 8) :
    (blocks.foldl Crypto.compress h).length = 8 := by
  induction blocks generalizing h with
  | nil => exact hl
  | cons b t ih =>
    rw [List.foldl_cons]
    exact ih _ (compress_length _ _ hl)

theorem sha256Words_length (msg : List Nat) : (Crypto.sha256Words msg).length = 8 :=
  foldl_compress_length _ _ rfl

theorem flatMap_const_length {α β : Type} (f : α → List β) (k : Nat)
    (hf : ∀ a, (f a).length = k) (l : List α) : (l.flatMap f).length = k * l.length := by
  induction l with
  | nil => simp
  | cons a t ih =>
    rw [List.flatMap_cons, List.length_append, ih, hf, List.length_cons]
    ring

theorem sha256_length (msg : List Nat) : (Crypto.sha256 msg).length = 32 := by
  unfold Crypto.sha256
  rw [flatMap_const_length
    (fun w => [w / 16777216 % 256, w / 65536 % 256, w / 256 % 256, w % 256]) 4 (fun _ => rfl),
    sha256Words_length]

theorem hmacSha256_length (key msg : List Nat) : (Crypto.hmacSha256 key msg).length = 32 := by
  unfold Crypto.hmacSha256
  exact sha256_length _

theorem hexEncode_length (bytes : List Nat) : (Crypto.hexEncode bytes).length = 2 * bytes.length := by
  show (bytes.flatMap fun b => [Crypto.hexChar (b / 16), Crypto.hexChar (b % 16)]).length = _
  exact flatMap_const_length
    (fun b => [Crypto.hexChar (b / 16), Crypto.hexChar (b % 16)]) 2 (fun _ => rfl) bytes

theorem hmacSha256Hex_length (key msg : String) : (Crypto.hmacSha256Hex key msg).length = 64 := by
  unfold Crypto.hmacSha256Hex
  rw [hexEncode_length, hmacSha256_length]

/-- The signature the server computes is always "sha256=" plus 64 hex
characters — 71 characters (= bytes, all ASCII) in total. -/
theorem digest_length (sec body : String) :
    ("sha256=" ++ Crypto.hmacSha256Hex sec body).length = 71 := by
  rw [String.length_append, hmacSha256Hex_length]
  decide

end GeminiTeam

namespace GeminiTeam

/-! ## C5 — signature verification -/

/-- C5 counterexample: a mismatching signature header whose byte length
differs from the 71-byte computed digest ("sha256=abc") makes
`crypto.timingSafeEqual` throw; the catch of the route answers HTTP 500, not
the claimed 401 — so "401 on any signature mismatch, 500 only on internal
failure during job preparation" is false. -/
theorem C5_counterexample :
    (handleWebhook (some "webhook-secret") []
        ⟨some "issue_comment", some "sha256=abc", samplePayload⟩
        (Except.ok "gemini-1")).response =
      HttpResponse.serverError500 "Internal server error" ∧
    "sha256=abc" ≠
      "sha256=" ++ Crypto.hmacSha256Hex "webhook-secret" (stringifyPayload samplePayload) := by
  constructor
  · decide
  · intro h
    have hl := congrArg String.length h
    rw [digest_length] at hl
    exact absurd hl (by decide)

/-- C5 (amended): with a secret configured, the server HMAC-SHA256-hashes
`JSON.stringify` of the parsed request body, hex-encodes it with the
"sha256=" prefix (71 bytes), and compares via the constant-time
`crypto.timingSafeEqual`; a missing signature header, or a mismatching one
of the same length as the digest, is answered 401, while a non-empty
signature whose length differs from 71 makes the comparison throw and is
answered 500; a correct signature makes the route behave exactly as if no
secret were configured. -/
theorem C5_amended (sec : String) (p : GitHubWebhookPayload) (sig : String)
    (processed : List String) (ev : Option String) (prep : Except String String)
    (hsec : sec ≠ "") (hsig : sig ≠ "") :
    ("sha256=" ++ Crypto.hmacSha256Hex sec (stringifyPayload p)).length = 71 ∧
    verifySignature (some sec) p none = Except.ok false ∧
    (handleWebhook (some sec) processed ⟨ev, none, p⟩ prep).response =
      HttpResponse.unauthorized401 "Invalid signature" ∧
    (sig.length = 71 →
      sig ≠ "sha256=" ++ Crypto.hmacSha256Hex sec (stringifyPayload p) →
      (handleWebhook (some sec) processed ⟨ev, some sig, p⟩ prep).response =
        HttpResponse.unauthorized401 "Invalid signature") ∧
    (sig.length ≠ 71 →
      (handleWebhook (some sec) processed ⟨ev, some sig, p⟩ prep).response =
        HttpResponse.serverError500 "Internal server error") ∧
    (sig = "sha256=" ++ Crypto.hmacSha256Hex sec (stringifyPayload p) →
      handleWebhook (some sec) processed ⟨ev, some sig, p⟩ prep =
        handleWebhook none processed ⟨ev, some sig, p⟩ prep) := by
  have hd : ("sha256=" ++ Crypto.hmacSha256Hex sec (stringifyPayload p)).length = 71 :=
    digest_length sec (stringifyPayload p)
  refine ⟨hd, rfl, ?_, ?_, ?_, ?_⟩
  · simp only [handleWebhook]
    rw [if_neg hsec]
    rfl
  · intro hlen hne
    simp only [handleWebhook]
    rw [if_neg hsec]
    simp only [verifySignature]
    rw [if_neg (show ¬ (sig = "" ∨ sec = "") from fun hor => hor.elim hsig hsec)]
    simp only [timingSafeEqual]
    rw [if_pos (show ("sha256=" ++ Crypto.hmacSha256Hex sec (stringifyPayload p)).length
        = sig.length from by rw [hd, hlen]),
      decide_eq_false (show ¬ ("sha256=" ++ Crypto.hmacSha256Hex sec (stringifyPayload p)
        = sig) from fun h => hne h.symm)]
  · intro hlen
    simp only [handleWebhook]
    rw [if_neg hsec]
    simp only [verifySignature]
    rw [if_neg (show ¬ (sig = "" ∨ sec = "") from fun hor => hor.elim hsig hsec)]
    simp only [timingSafeEqual]
    rw [if_neg (show ¬ (("sha256=" ++
        Crypto.hmacSha256Hex sec (stringifyPayload p)).length = sig.length) from by
      rw [hd]; exact fun h => hlen h.symm)]
  · intro hEq
    simp only [handleWebhook]
    rw [if_neg hsec]
    simp only [verifySignature]
    rw [if_neg (show ¬ (sig = "" ∨ sec = "") from fun hor => hor.elim hsig hsec)]
    simp only [timingSafeEqual]
    rw [if_pos (show ("sha256=" ++ Crypto.hmacSha256Hex sec (stringifyPayload p)).length
        = sig.length from by rw [hEq]),
      decide_eq_true hEq.symm]

end GeminiTeam

namespace GeminiTeam

/-- C5 witness: the amended behavior at a concrete secret, payload and
signature header. -/
theorem C5_witness :
    ("webhook-secret" : String) ≠ "" ∧ ("sha256=abc" : String) ≠ "" ∧
    (("sha256=" ++ Crypto.hmacSha256Hex "webhook-secret"
        (stringifyPayload samplePayload)).length = 71 ∧
    verifySignature (some "webhook-secret") samplePayload none = Except.ok false ∧
    (handleWebhook (some "webhook-secret") []
        ⟨some "issue_comment", none, samplePayload⟩ (Except.ok "gemini-1")).response =
      HttpResponse.unauthorized401 "Invalid signature" ∧
    (("sha256=abc" : String).length = 71 →
      "sha256=abc" ≠ "sha256=" ++ Crypto.hmacSha256Hex "webhook-secret"
        (stringifyPayload samplePayload) →
      (handleWebhook (some "webhook-secret") []
          ⟨some "issue_comment", some "sha256=abc", samplePayload⟩
          (Except.ok "gemini-1")).response =
        HttpResponse.unauthorized401 "Invalid signature") ∧
    (("sha256=abc" : String).length ≠ 71 →
      (handleWebhook (some "webhook-secret") []
          ⟨some "issue_comment", some "sha256=abc", samplePayload⟩
          (Except.ok "gemini-1")).response =
        HttpResponse.serverError500 "Internal server error") ∧
    ("sha256=abc" = "sha256=" ++ Crypto.hmacSha256Hex "webhook-secret"
        (stringifyPayload samplePayload) →
      handleWebhook (some "webhook-secret") []
          ⟨some "issue_comment", some "sha256=abc", samplePayload⟩ (Except.ok "gemini-1") =
        handleWebhook none []
          ⟨some "issue_comment", some "sha256=abc", samplePayload⟩ (Except.ok "gemini-1"))) :=
  ⟨by decide, by decide,
    C5_amended "webhook-secret" samplePayload "sha256=abc" [] (some "issue_comment")
      (Except.ok "gemini-1") (by decide) (by decide)⟩

end GeminiTeam

namespace GeminiTeam.DurableQueue

/-! ## C9 — at-most-one active execution per job id (spec-modelled queue) -/

theorem dequeue_requires_waiting {s s' : QState} {id : String} {w : Nat}
    (h : applyAct s (QAct.dequeue id w) = some s') :
    s id = some JobStatus.waiting ∧ s' id = some (JobStatus.active w) := by
  simp only [applyAct] at h
  cases hs : s id with
  | none => rw [hs] at h; exact absurd h (by simp)
  | some st =>
    cases st with
    | waiting =>
      rw [hs] at h
      refine ⟨rfl, ?_⟩
      have hs' : s' = setJob s id (JobStatus.active w) := by
        injection h with h'
        exact h'.symm
      rw [hs']
      simp [setJob]
    | active w' => rw [hs] at h; exact absurd h (by simp)
    | completed => rw [hs] at h; exact absurd h (by simp)
    | failed => rw [hs] at h; exact absurd h (by simp)

theorem active_persists {s s' : QState} {id : String} {w : Nat} (a : QAct)
    (hact : s id = some (JobStatus.active w)) (h : applyAct s a = some s')
    (hnc : a ≠ QAct.complete id) (hnf : a ≠ QAct.failJob id) :
    s' id = some (JobStatus.active w) := by
  cases a with
  | enqueue id' =>
    simp only [applyAct] at h
    by_cases hid : id' = id
    · subst hid
      rw [hact] at h
      exact absurd h (by simp)
    · cases hs : s id' with
      | none =>
        rw [hs] at h
        injection h with h'
        have hne : id ≠ id' := fun he => hid he.symm
        rw [← h']
        simp [setJob, hne, hact]
      | some st => rw [hs] at h; exact absurd h (by simp)
  | dequeue id' w' =>
    simp only [applyAct] at h
    by_cases hid : id' = id
    · subst hid
      rw [hact] at h
      exact absurd h (by simp)
    · cases hs : s id' with
      | some st =>
        cases st with
        | waiting =>
          rw [hs] at h
          injection h with h'
          have hne : id ≠ id' := fun he => hid he.symm
          rw [← h']
          simp [setJob, hne, hact]
        | active w'' => rw [hs] at h; exact absurd h (by simp)
        | completed => rw [hs] at h; exact absurd h (by simp)
        | failed => rw [hs] at h; exact absurd h (by simp)
      | none => rw [hs] at h; exact absurd h (by simp)
  | complete id' =>
    simp only [applyAct] at h
    by_cases hid : id' = id
    · exact absurd (by rw [hid]) hnc
    · cases hs : s id' with
      | some st =>
        cases st with
        | active w'' =>
          rw [hs] at h
          injection h with h'
          have hne : id ≠ id' := fun he => hid he.symm
          rw [← h']
          simp [setJob, hne, hact]
        | waiting => rw [hs] at h; exact absurd h (by simp)
        | completed => rw [hs] at h; exact absurd h (by simp)
        | failed => rw [hs] at h; exact absurd h (by simp)
      | none => rw [hs] at h; exact absurd h (by simp)
  | failJob id' =>
    simp only [applyAct] at h
    by_cases hid : id' = id
    · exact absurd (by rw [hid]) hnf
    · cases hs : s id' with
      | some st =>
        cases st with
        | active w'' =>
          rw [hs] at h
          injection h with h'
          have hne : id ≠ id' := fun he => hid he.symm
          rw [← h']
          simp [setJob, hne, hact]
        | waiting => rw [hs] at h; exact absurd h (by simp)
        | completed => rw [hs] at h; exact absurd h (by simp)
        | failed => rw [hs] at h; exact absurd h (by simp)
      | none => rw [hs] at h; exact absurd h (by simp)
  | retry id' =>
    simp only [applyAct] at h
    by_cases hid : id' = id
    · subst hid
      rw [hact] at h
      exact absurd h (by simp)
    · cases hs : s id' with
      | some st =>
        cases st with
        | failed =>
          rw [hs] at h
          injection h with h'
          have hne : id ≠ id' := fun he => hid he.symm
          rw [← h']
          simp [setJob, hne, hact]
        | waiting => rw [hs] at h; exact absurd h (by simp)
        | active w'' => rw [hs] at h; exact absurd h (by simp)
        | completed => rw [hs] at h; exact absurd h (by simp)
      | none => rw [hs] at h; exact absurd h (by simp)

theorem no_second_dequeue {id : String} {w : Nat} :
    ∀ (mid : List QAct) (s : QState) (w2 : Nat) (rest : List QAct),
    s id = some (JobStatus.active w) →
    (runTrace s (mid ++ QAct.dequeue id w2 :: rest)).isSome = true →
    ∃ a ∈ mid, a = QAct.complete id ∨ a = QAct.failJob id := by
  intro mid
  induction mid with
  | nil =>
    intro s w2 rest hact hrun
    rw [List.nil_append] at hrun
    simp only [runTrace] at hrun
    cases happ : applyAct s (QAct.dequeue id w2) with
    | none => rw [happ] at hrun; exact absurd hrun (by simp)
    | some s1 =>
      have hw := (dequeue_requires_waiting happ).1
      rw [hact] at hw
      exact absurd hw (by simp)
  | cons a mid ih =>
    intro s w2 rest hact hrun
    rw [List.cons_append] at hrun
    simp only [runTrace] at hrun
    cases happ : applyAct s a with
    | none => rw [happ] at hrun; exact absurd hrun (by simp)
    | some s1 =>
      rw [happ] at hrun
      by_cases hc : a = QAct.complete id ∨ a = QAct.failJob id
      · exact ⟨a, List.mem_cons_self a mid, hc⟩
      · push_neg at hc
        have hact1 := active_persists a hact happ hc.1 hc.2
        obtain ⟨b, hb, hterm⟩ := ih s1 w2 rest hact1 hrun
        exact ⟨b, List.mem_cons_of_mem a hb, hterm⟩

/-- C9: in the Durable Queue state machine a job id, once dequeued by a
worker, cannot be dequeued by a second worker until it reaches a terminal
status: any realizable trace containing two dequeues of the same id has a
`complete` or `failJob` transition for that id strictly between them. -/
theorem C9_theorem (pre mid rest : List QAct) (id : String) (w1 w2 : Nat)
    (hrun : (runTrace initState
      (pre ++ (QAct.dequeue id w1 :: (mid ++ (QAct.dequeue id w2 :: rest))))).isSome = true) :
    ∃ a ∈ mid, a = QAct.complete id ∨ a = QAct.failJob id := by
  have hsplit : ∀ (s : QState) (l1 l2 : List QAct),
      (runTrace s (l1 ++ l2)).isSome = true →
      ∃ s1, runTrace s l1 = some s1 ∧ (runTrace s1 l2).isSome = true := by
    intro s l1
    induction l1 generalizing s with
    | nil =>
      intro l2 h
      exact ⟨s, rfl, by rwa [List.nil_append] at h⟩
    | cons a t ih =>
      intro l2 h
      rw [List.cons_append] at h
      simp only [runTrace] at h ⊢
      cases happ : applyAct s a with
      | none => rw [happ] at h; exact absurd h (by simp)
      | some s1 =>
        rw [happ] at h
        exact ih s1 l2 h
  obtain ⟨s0, hpre, hrest⟩ := hsplit initState pre _ hrun
  simp only [runTrace] at hrest
  cases happ : applyAct s0 (QAct.dequeue id w1) with
  | none => rw [happ] at hrest; exact absurd hrest (by simp)
  | some s1 =>
    rw [happ] at hrest
    exact no_second_dequeue mid s1 w2 rest (dequeue_requires_waiting happ).2 hrest

/-- C9 witness: a realizable trace (enqueue, dequeue by worker 0, failure,
retry, dequeue by worker 1) satisfying the hypothesis of the theorem, and the
terminal transition it guarantees. -/
theorem C9_witness :
    (runTrace initState ([QAct.enqueue "j"] ++ (QAct.dequeue "j" 0 ::
      ([QAct.failJob "j", QAct.retry "j"] ++ (QAct.dequeue "j" 1 :: []))))).isSome = true ∧
    (∃ a ∈ [QAct.failJob "j", QAct.retry "j"],
      a = QAct.complete "j" ∨ a = QAct.failJob "j") :=
  ⟨by rfl,
    C9_theorem [QAct.enqueue "j"] [QAct.failJob "j", QAct.retry "j"] [] "j" 0 1 (by rfl)⟩

end GeminiTeam.DurableQueue
